import Mathlib

/-!
Shallow embedding of the resume rendering engine of `src/main.py`
(classes `DynamicSection`, `ExperienceSection`, `SkillsSection`,
`EducationSection`, `ProjectsSection` and `ResumePDFGenerator`).

JSON-compatible Python values are modelled by `Value`; ReportLab flowables
(`Paragraph`, `Spacer`, `HRFlowable`) by `Flowable`, where a paragraph
carries its markup text and the name of the style it was built with.
Operations that can raise in Python (`in` on a non-container, subscription,
iteration, `str.join` over non-strings, `.items()` on a non-dict) return
`Except String` values carrying the Python error message; `try`/`except`
blocks of the source become explicit `match`es on those `Except` results.
`Paragraph` construction itself is modelled as a pure constructor (ReportLab
markup validation is outside the embedded code).
-/

namespace ResumeGen

/-- A JSON-compatible Python value: `None`, `bool`, `int`, `str`, `list`,
`dict` (with string keys, in insertion order, as produced by `json.loads`). -/
inductive Value where
  | null : Value
  | bool (b : Bool) : Value
  | num (n : Int) : Value
  | str (s : String) : Value
  | arr (items : List Value) : Value
  | obj (fields : List (String × Value)) : Value

mutual

/-- Structural equality on `Value` (Python `==` restricted to the shapes we model). -/
def Value.beq : Value → Value → Bool
  | .null, .null => true
  | .bool a, .bool b => a == b
  | .num a, .num b => a == b
  | .str a, .str b => a == b
  | .arr a, .arr b => Value.beqList a b
  | .obj a, .obj b => Value.beqFields a b
  | _, _ => false

def Value.beqList : List Value → List Value → Bool
  | [], [] => true
  | a :: as_, b :: bs => Value.beq a b && Value.beqList as_ bs
  | _, _ => false

def Value.beqFields : List (String × Value) → List (String × Value) → Bool
  | [], [] => true
  | (k1, v1) :: as_, (k2, v2) :: bs => k1 == k2 && Value.beq v1 v2 && Value.beqFields as_ bs
  | _, _ => false

end

instance : BEq Value := ⟨Value.beq⟩

/-- Python dictionary lookup on an association list (first binding wins;
a real Python dict never has duplicate keys). -/
def lookupAssoc {α : Type} : List (String × α) → String → Option α
  | [], _ => none
  | (k, v) :: rest, key => if k = key then some v else lookupAssoc rest key

/-- Python `d[key] = v` on a dict: replace the value of an existing key in
place (keeping its position), or append a new binding at the end. -/
def updateField : List (String × Value) → String → Value → List (String × Value)
  | [], k, v => [(k, v)]
  | (k', v') :: rest, k, v =>
    if k' = k then (k, v) :: rest else (k', v') :: updateField rest k v

/-- Python truthiness of a value (`bool(v)`). -/
def pyTruthy : Value → Bool
  | .null => false
  | .bool b => b
  | .num n => n != 0
  | .str s => s != ""
  | .arr items => !items.isEmpty
  | .obj fields => !fields.isEmpty

/-- The unquoted Python type name, as it appears in error messages. -/
def pyTypeShort : Value → String
  | .null => "NoneType"
  | .bool _ => "bool"
  | .num _ => "int"
  | .str _ => "str"
  | .arr _ => "list"
  | .obj _ => "dict"

/-- `f"{type(v)}"` in Python. -/
def pyTypeName (v : Value) : String :=
  "<class \x27" ++ pyTypeShort v ++ "\x27>"

mutual

/-- Python `repr` of a value (string quoting as produced for containers). -/
def pyRepr : Value → String
  | .null => "None"
  | .bool true => "True"
  | .bool false => "False"
  | .num n => toString n
  | .str s => "\x27" ++ s ++ "\x27"
  | .arr items => "[" ++ String.intercalate ", " (pyReprList items) ++ "]"
  | .obj fields => "\x7b" ++ String.intercalate ", " (pyReprFields fields) ++ "\x7d"

def pyReprList : List Value → List String
  | [] => []
  | v :: vs => pyRepr v :: pyReprList vs

def pyReprFields : List (String × Value) → List String
  | [] => []
  | (k, v) :: fs => ("\x27" ++ k ++ "\x27: " ++ pyRepr v) :: pyReprFields fs

end

/-- Python `str(v)` / f-string interpolation of a value. -/
def pyStr : Value → String
  | .str s => s
  | v => pyRepr v

/-- `needle` occurs at the head of the list. -/
def startsWithSeq {α : Type} [BEq α] : List α → List α → Bool
  | [], _ => true
  | _ :: _, [] => false
  | a :: as_, b :: bs => a == b && startsWithSeq as_ bs

/-- `needle` occurs somewhere in the list (Python substring test). -/
def containsSeq {α : Type} [BEq α] (needle : List α) : List α → Bool
  | [] => startsWithSeq needle []
  | c :: cs => startsWithSeq needle (c :: cs) || containsSeq needle cs

/-- Python `key in container`: dict key membership, substring test on a
string, element membership on a list; raises `TypeError` otherwise. -/
def pyContains (container : Value) (key : String) : Except String Bool :=
  match container with
  | .obj fields => .ok (lookupAssoc fields key).isSome
  | .str s => .ok (containsSeq key.data s.data)
  | .arr items => .ok (items.contains (.str key))
  | other =>
    .error ("TypeError: argument of type \x27" ++ pyTypeShort other ++ "\x27 is not iterable")

/-- Python `container[key]` with a string key. -/
def pyGetItem (container : Value) (key : String) : Except String Value :=
  match container with
  | .obj fields =>
    match lookupAssoc fields key with
    | some v => .ok v
    | none => .error ("KeyError: \x27" ++ key ++ "\x27")
  | .str _ => .error "TypeError: string indices must be integers"
  | .arr _ => .error "TypeError: list indices must be integers or slices, not str"
  | other =>
    .error ("TypeError: \x27" ++ pyTypeShort other ++ "\x27 object is not subscriptable")

/-- Python iteration: list elements, dict keys, characters of a string. -/
def pyIter : Value → Except String (List Value)
  | .arr items => .ok items
  | .obj fields => .ok (fields.map (fun kv => .str kv.1))
  | .str s => .ok (s.data.map (fun c => .str (String.mk [c])))
  | other =>
    .error ("TypeError: \x27" ++ pyTypeShort other ++ "\x27 object is not iterable")

/-- Python `sep.join(items)`: every element must be a `str`. -/
def pyJoinAux (idx : Nat) : List Value → Except String (List String)
  | [] => .ok []
  | .str s :: rest => (pyJoinAux (idx + 1) rest).map (fun ss => s :: ss)
  | other :: _ =>
    .error ("TypeError: sequence item " ++ toString idx ++ ": expected str instance, "
      ++ pyTypeShort other ++ " found")

/-- Python `sep.join(items)`. -/
def pyJoin (sep : String) (items : List Value) : Except String String :=
  (pyJoinAux 0 items).map (String.intercalate sep)

/-- Python string slicing `s[:n]` (by characters). -/
def strTake (n : Nat) (s : String) : String := String.mk (s.data.take n)

/-- Python `len(s)` for a string. -/
def pyLen (s : String) : Nat := s.data.length

/-- Python `str.title()`: each maximal run of letters is capitalized on its
first letter, lowercased elsewhere (ASCII model). -/
def pyTitleAux : Bool → List Char → List Char
  | _, [] => []
  | prevAlpha, c :: cs =>
    (if c.isAlpha then (if prevAlpha then c.toLower else c.toUpper) else c)
      :: pyTitleAux c.isAlpha cs

def pyTitle (s : String) : String := String.mk (pyTitleAux false s.data)

/-- `re.sub(r'([a-z])([A-Z])', r'\1 \2', s)`: insert a space between a
lowercase letter and a following uppercase letter. -/
def insertCamelSpaces : List Char → List Char
  | [] => []
  | [c] => [c]
  | a :: b :: rest =>
    if a.isLower && b.isUpper then a :: ' ' :: insertCamelSpaces (b :: rest)
    else a :: insertCamelSpaces (b :: rest)

/-- The section-title humanization of `process_resume` (src/main.py:673-674):
camel-case split, underscores to spaces, then `str.title()`. -/
def humanize (s : String) : String :=
  pyTitle (String.mk ((insertCamelSpaces s.data).map (fun c => if c = '_' then ' ' else c)))

/-- A ReportLab flowable as produced by the engine: a `Paragraph` (markup
text plus the name of the style it was built with), a `Spacer(w, h)`, or the
`HRFlowable` section divider of `add_section_divider`. -/
inductive Flowable where
  | para (text : String) (style : String) : Flowable
  | spacer (w h : Nat) : Flowable
  | hrDivider : Flowable
deriving DecidableEq

/-- The bullet glyph used by the renderers (copied from src/main.py as it
appears in the file). -/
def bullet : String := "‚Ä¢"

/-! ## Theme and style catalog (`_get_theme_colors`, `setup_styles`) -/

/-- Paragraph-style attributes explicitly set by `setup_styles`; unset
attributes are inherited from `parent` by ReportLab. Alignments use the
ReportLab constants TA_LEFT = 0, TA_CENTER = 1, TA_RIGHT = 2. -/
structure ParaStyle where
  parent : Option String := none
  fontSize : Option Nat := none
  textColor : Option String := none
  alignment : Option Nat := none
  spaceBefore : Option Nat := none
  spaceAfter : Option Nat := none
  leading : Option Nat := none
  leftIndent : Option Nat := none
  fontName : Option String := none
  backColor : Option String := none
  borderWidth : Option Nat := none
  borderColor : Option String := none
  borderPadding : Option Nat := none
  borderRadius : Option Nat := none

def TA_LEFT : Nat := 0
def TA_CENTER : Nat := 1
def TA_RIGHT : Nat := 2

/-- The default color palette of `_get_theme_colors` (src/main.py:395-405). -/
def defaultPalette : List (String × String) :=
  [("primary", "#2A1052"), ("secondary", "#333333"), ("accent", "#4B0082"),
   ("text", "#000000"), ("subtext", "#666666"), ("background", "#FFFFFF"),
   ("highlight", "#4B0082")]

/-- The theme table of `_get_theme_colors`: only `default` is defined. -/
def themes : List (String × List (String × String)) := [("default", defaultPalette)]

/-- `_get_theme_colors`: `themes.get(theme, themes['default'])`. -/
def get_theme_colors (theme : String) : List (String × String) :=
  (lookupAssoc themes theme).getD defaultPalette

/-- `self.colors[role]` for the resolved theme. -/
def paletteColor (theme role : String) : String :=
  (lookupAssoc (get_theme_colors theme) role).getD ""

/-- The styles present in ReportLab's `getSampleStyleSheet()` (external
library; only the names and parent links matter to the embedded code). -/
def sampleStyleSheet : List (String × ParaStyle) :=
  [("Normal", {}), ("BodyText", { parent := some "Normal" }),
   ("Italic", { parent := some "BodyText" }), ("Heading1", { parent := some "Normal" }),
   ("Title", { parent := some "Normal" }), ("Heading2", { parent := some "Normal" }),
   ("Heading3", { parent := some "Normal" }), ("Heading4", { parent := some "Normal" }),
   ("Heading5", { parent := some "Normal" }), ("Heading6", { parent := some "Normal" }),
   ("Bullet", { parent := some "Normal" }), ("Definition", { parent := some "Normal" }),
   ("Code", { parent := some "Normal" }),
   ("UnorderedList", { parent := some "Normal" }), ("OrderedList", { parent := some "Normal" })]

/-- `ResumePDFGenerator.setup_styles` (src/main.py:417-537): the sample
stylesheet extended with the custom named styles, colored by the theme. -/
def setup_styles (theme : String) : List (String × ParaStyle) :=
  sampleStyleSheet ++
  [("HeaderName",
    { parent := some "Heading1", fontSize := some 20,
      textColor := some (paletteColor theme "primary"),
      spaceAfter := some 10, alignment := some TA_CENTER }),
   ("Contact",
    { parent := some "Normal", fontSize := some 10,
      textColor := some (paletteColor theme "text"),
      alignment := some TA_CENTER, spaceAfter := some 5 }),
   ("Error",
    { parent := some "Normal", fontSize := some 11, textColor := some "red",
      spaceBefore := some 2, spaceAfter := some 2, backColor := some "lightgrey",
      borderWidth := some 1, borderColor := some "red", borderPadding := some 5,
      borderRadius := some 2, alignment := some TA_LEFT }),
   ("HeaderTitle",
    { parent := some "Normal", fontSize := some 12,
      textColor := some (paletteColor theme "subtext"),
      alignment := some TA_LEFT, spaceAfter := some 8, leading := some 14 }),
   ("SectionHeader",
    { parent := some "Heading2", fontSize := some 14,
      textColor := some (paletteColor theme "primary"),
      spaceBefore := some 8, spaceAfter := some 2, leading := some 16,
      fontName := some "Helvetica-Bold" }),
   ("ListItem",
    { parent := some "Normal", fontSize := some 9,
      textColor := some (paletteColor theme "text"),
      spaceBefore := some 0, spaceAfter := some 3, leftIndent := some 10,
      leading := some 13 }),
   ("Content",
    { parent := some "Normal", fontSize := some 10,
      textColor := some (paletteColor theme "text"),
      spaceBefore := some 0, spaceAfter := some 3, leading := some 13 }),
   ("SkillItem",
    { parent := some "Normal", fontSize := some 9,
      textColor := some (paletteColor theme "text"),
      spaceBefore := some 1, spaceAfter := some 1, leading := some 12 }),
   ("ExperienceTitle",
    { parent := some "Normal", fontSize := some 10,
      textColor := some (paletteColor theme "text"),
      spaceBefore := some 4, spaceAfter := some 1, leading := some 12 }),
   ("JobTitle",
    { parent := some "Normal", fontSize := some 10,
      textColor := some (paletteColor theme "primary"),
      spaceBefore := some 1, spaceAfter := some 2, leading := some 12 }),
   ("ExperienceDetails",
    { parent := some "Normal", fontSize := some 9,
      textColor := some (paletteColor theme "subtext"),
      spaceBefore := some 1, spaceAfter := some 2, leading := some 11 })]

/-- Every style name looked up by a section renderer, the section
error paths, or the assembler. -/
def requiredStyleNames : List String :=
  ["HeaderName", "Contact", "Error", "HeaderTitle", "SectionHeader", "ListItem",
   "Content", "SkillItem", "ExperienceTitle", "JobTitle", "ExperienceDetails", "Normal"]

/-! ## The responsibility highlighter (`ExperienceSection._format_responsibility`)

`re.sub(r'(\d+[%+]|\$[\d,]+|increased|decreased|improved|launched|created|developed)',
        r'<b>\1</b>', resp, flags=re.IGNORECASE)`

`re.sub` scans left to right; at each position the alternation is tried
branch by branch.  `\d+[%+]` can only succeed with the maximal digit run
(any shorter run is followed by a digit, which is not `%`/`+`), and
`\$[\d,]+` takes the maximal run of digits and commas after `$`. -/

def keywordList : List String :=
  ["increased", "decreased", "improved", "launched", "created", "developed"]

/-- Try the six keyword branches (case-insensitively) at a position whose
first character is `c`; returns the number of chars matched after `c`. -/
def matchKeywordExtra : List String → Char → List Char → Option Nat
  | [], _, _ => none
  | kw :: rest, c, cs =>
    if (c :: cs.take (kw.length - 1)).map Char.toLower = kw.data then some (kw.length - 1)
    else matchKeywordExtra rest c cs

/-- Try the whole alternation at a position whose first character is `c`;
returns the number of chars matched after `c` (so a match has length
`1 + extra`). -/
def matchExtra (c : Char) (cs : List Char) : Option Nat :=
  if c.isDigit then
    let run := cs.takeWhile Char.isDigit
    match cs.drop run.length with
    | d :: _ => if d = '%' || d = '+' then some (run.length + 1) else none
    | [] => none
  else if c = '$' then
    let run := cs.takeWhile (fun x => x.isDigit || x = ',')
    if run.length = 0 then none else some run.length
  else matchKeywordExtra keywordList c cs

/-- The `re.sub` scan: wrap every leftmost non-overlapping match in
`<b>…</b>`, copying all other characters unchanged. The fuel argument only
makes the recursion structural; every match consumes at least one
character, so fuel equal to the input length never runs out. -/
def highlightAux : Nat → List Char → List Char
  | _, [] => []
  | 0, l => l
  | fuel + 1, c :: cs =>
    match matchExtra c cs with
    | some k =>
      "<b>".data ++ (c :: cs.take k) ++ "</b>".data ++ highlightAux fuel (cs.drop k)
    | none => c :: highlightAux fuel cs

/-- `ExperienceSection._format_responsibility` (src/main.py:184-189). -/
def formatResponsibility (resp : String) : String :=
  String.mk (highlightAux resp.data.length resp.data)

/-! ## `ExperienceSection.process` (src/main.py:122-182)

The Python loop body appends, per record: the company/location/date header
table, an italic title, a spacer plus one highlighted bullet per
responsibility, one bullet per achievement, and a trailing `Spacer(1, 10)`.
A `TypeError` (e.g. `'company' in exp` on an int, or a non-string
responsibility handed to `re.sub`) propagates to the section boundary. -/

def expProcessOne (exp : Value) : Except String (List Flowable) := do
  let hasCompany ← pyContains exp "company"
  let companyLocDate ←
    if hasCompany then do
      let hasLocation ← pyContains exp "location"
      if hasLocation then do
        let c ← pyGetItem exp "company"
        let l ← pyGetItem exp "location"
        pure ["<b>" ++ pyStr c ++ ", " ++ pyStr l ++ "</b>"]
      else do
        let c ← pyGetItem exp "company"
        pure ["<b>" ++ pyStr c ++ "</b>"]
    else pure ([] : List String)
  let base := "<table width=\x27100%\x27><tr>"
    ++ "<td>" ++ String.intercalate " " companyLocDate ++ "</td>"
  let hasDate ← pyContains exp "date"
  let withDate ←
    if hasDate then do
      let d ← pyGetItem exp "date"
      pure (base ++ "<td align=\x27right\x27>" ++ pyStr d ++ "</td>")
    else pure base
  let headerBlock := Flowable.para (withDate ++ "</tr></table>") "ExperienceTitle"
  let hasTitle ← pyContains exp "title"
  let titleBlocks ←
    if hasTitle then do
      let t ← pyGetItem exp "title"
      pure [Flowable.para ("<i>" ++ pyStr t ++ "</i>") "JobTitle"]
    else pure ([] : List Flowable)
  let hasResp ← pyContains exp "responsibilities"
  let respBlocks ←
    if hasResp then do
      let rs ← pyGetItem exp "responsibilities"
      let items ← pyIter rs
      let formatted ← items.mapM (fun r =>
        match r with
        | .str s =>
          Except.ok (Flowable.para (bullet ++ " " ++ formatResponsibility s) "ListItem")
        | other =>
          Except.error ("TypeError: expected string or bytes-like object, got \x27"
            ++ pyTypeShort other ++ "\x27"))
      pure (Flowable.spacer 1 5 :: formatted)
    else pure ([] : List Flowable)
  let hasAch ← pyContains exp "achievements"
  let achBlocks ←
    if hasAch then do
      let achs ← pyGetItem exp "achievements"
      let items ← pyIter achs
      pure (items.map (fun a => Flowable.para (bullet ++ " " ++ pyStr a) "ListItem"))
    else pure ([] : List Flowable)
  pure ([headerBlock] ++ titleBlocks ++ respBlocks ++ achBlocks ++ [Flowable.spacer 1 10])

/-- `ExperienceSection.process`: iterate the payload, rendering each record. -/
def experienceProcess (v : Value) : Except String (List Flowable) := do
  let items ← pyIter v
  let blockss ← items.mapM expProcessOne
  pure blockss.flatten

/-! ## `SkillsSection.process` (src/main.py:191-217) -/

/-- `SkillsSection.process`: one `**Category:** list` line per category; a
non-dict payload raises `AttributeError` at `.items()`. -/
def skillsProcess (v : Value) : Except String (List Flowable) :=
  match v with
  | .obj fields => do
    let blockss ← fields.mapM (fun kv =>
      match kv.2 with
      | .arr items => do
        let joined ← pyJoin ", " items
        pure [Flowable.para ("<b>" ++ kv.1 ++ ":</b> " ++ joined) "SkillItem",
              Flowable.spacer 1 3]
      | other =>
        pure [Flowable.para ("<b>" ++ kv.1 ++ ":</b> " ++ pyStr other) "SkillItem",
              Flowable.spacer 1 3])
    pure blockss.flatten
  | other =>
    .error ("AttributeError: \x27" ++ pyTypeShort other
      ++ "\x27 object has no attribute \x27items\x27")

/-! ## `EducationSection.process` (src/main.py:219-310) -/

/-- The school/location/date header line of one education record
(src/main.py:246-271). The `school` alias branch is only reached when
`institution` is absent and, unlike the `institution` branch, never
includes the location. -/
def eduHeaderText (edu : List (String × Value)) : String :=
  let schoolLocDate :=
    match lookupAssoc edu "institution", lookupAssoc edu "location" with
    | some i, some l => ["<b>" ++ pyStr i ++ ", " ++ pyStr l ++ "</b>"]
    | some i, none => ["<b>" ++ pyStr i ++ "</b>"]
    | none, _ =>
      match lookupAssoc edu "school" with
      | some sch => ["<b>" ++ pyStr sch ++ "</b>"]
      | none => ["<b>Institution not specified</b>"]
  let base := "<table width=\x27100%\x27><tr>"
    ++ "<td>" ++ String.intercalate " " schoolLocDate ++ "</td>"
  let withDate :=
    match lookupAssoc edu "date" with
    | some d => base ++ "<td align=\x27right\x27>" ++ pyStr d ++ "</td>"
    | none =>
      match lookupAssoc edu "dates" with
      | some d => base ++ "<td align=\x27right\x27>" ++ pyStr d ++ "</td>"
      | none => base
  withDate ++ "</tr></table>"

/-- Render one education record (the body of the per-record loop,
src/main.py:246-308): header, optional italic degree line, then either a
bulleted `details` list or a comma-joined `courses` line. -/
def eduRenderEntry (edu : List (String × Value)) : Except String (List Flowable) := do
  let headerBlock := Flowable.para (eduHeaderText edu) "ExperienceTitle"
  let degreeBlocks :=
    match lookupAssoc edu "degree", lookupAssoc edu "major" with
    | some d, some m =>
      [Flowable.para ("<i>" ++ pyStr d ++ ": " ++ pyStr m ++ "</i>") "JobTitle"]
    | some d, none => [Flowable.para ("<i>" ++ pyStr d ++ "</i>") "JobTitle"]
    | none, _ => []
  let detailBlocks ←
    match lookupAssoc edu "details" with
    | some (.arr ds) =>
      pure (Flowable.spacer 1 5
        :: ds.map (fun d => Flowable.para (bullet ++ " " ++ pyStr d) "ListItem"))
    | _ =>
      match lookupAssoc edu "courses" with
      | some (.arr cs) => do
        let joined ← pyJoin ", " cs
        pure [Flowable.spacer 1 5,
              Flowable.para "<b>Relevant Coursework:</b>" "Content",
              Flowable.para joined "Content"]
      | _ => pure ([] : List Flowable)
  pure ([headerBlock] ++ degreeBlocks ++ detailBlocks ++ [Flowable.spacer 1 10])

/-- The visible marker substituted for a non-dict element of an education
list (src/main.py:240-245). -/
def eduSkipMarker (edu : Value) : Flowable :=
  Flowable.para ("Skipped invalid education entry (not a dictionary): "
    ++ strTake 100 (pyStr edu) ++ "...") "Error"

/-- One element of an education list: dict elements are rendered, anything
else becomes the skip marker (the `continue` branch, src/main.py:239-245). -/
def eduItemRender (edu : Value) : Except String (List Flowable) :=
  match edu with
  | .obj fields => eduRenderEntry fields
  | other => Except.ok [eduSkipMarker other]

/-- `EducationSection.process`. A dict payload hits `self.logger` which the
section object does not define (`DynamicSection.__init__` only sets styles
and colors), so it raises `AttributeError`; a string returns a raw-text
paragraph; any other non-list returns a format-error paragraph; a list is
rendered record by record with skip markers for non-dict elements. -/
def educationProcess (v : Value) : Except String (List Flowable) :=
  match v with
  | .obj _ =>
    .error "AttributeError: \x27EducationSection\x27 object has no attribute \x27logger\x27"
  | .str s => .ok [Flowable.para ("Education (raw text): " ++ s) "Normal"]
  | .arr items => do
    let blockss ← items.mapM eduItemRender
    pure blockss.flatten
  | other =>
    .ok [Flowable.para ("Education data is not in the expected format: "
      ++ pyTypeName other) "Error"]

/-! ## `ProjectsSection.process` (src/main.py:312-351) -/

def projectRenderOne (project : Value) : Except String (List Flowable) := do
  let hasName ← pyContains project "name"
  let headerMid ←
    if hasName then do
      let n ← pyGetItem project "name"
      let hasDate ← pyContains project "date"
      let withDate ←
        if hasDate then do
          let d ← pyGetItem project "date"
          pure ("<td><b>" ++ pyStr n ++ "</b>" ++ " (" ++ pyStr d ++ ")")
        else pure ("<td><b>" ++ pyStr n ++ "</b>")
      pure (withDate ++ "</td>")
    else pure ""
  let headerBlock :=
    Flowable.para ("<table width=\x27100%\x27><tr>" ++ headerMid ++ "</tr></table>") "JobTitle"
  let hasDesc ← pyContains project "description"
  let descBlocks ←
    if hasDesc then do
      let d ← pyGetItem project "description"
      pure [Flowable.para (bullet ++ " " ++ pyStr d) "ListItem"]
    else pure ([] : List Flowable)
  let hasTech ← pyContains project "technologies"
  let techBlocks ←
    if hasTech then do
      let t ← pyGetItem project "technologies"
      let techText ←
        match t with
        | .arr items => pyJoin ", " items
        | other => pure (pyStr other)
      pure [Flowable.para ("<i>Technologies: " ++ techText ++ "</i>") "ExperienceDetails"]
    else pure ([] : List Flowable)
  pure ([headerBlock] ++ descBlocks ++ techBlocks ++ [Flowable.spacer 1 5])

/-- `ProjectsSection.process`. -/
def projectsProcess (v : Value) : Except String (List Flowable) := do
  let items ← pyIter v
  let blockss ← items.mapM projectRenderOne
  pure blockss.flatten

/-! ## `json.loads` (Python standard library)

A fuel-indexed JSON parser, used by `process_resume` and
`create_header_section` on string-valued records. It covers objects,
arrays, strings with the common escapes, integer numbers, `true`, `false`
and `null`; numeric literals with a fraction or exponent and `\uXXXX`
escapes are not modelled (no theorem below evaluates the parser on such
input). -/

def isJsonWs (c : Char) : Bool := c = ' ' || c = '\t' || c = '\n' || c = '\r'

def skipWs (cs : List Char) : List Char := cs.dropWhile isJsonWs

def parseJStr : Nat → List Char → Option (String × List Char)
  | 0, _ => none
  | _ + 1, [] => none
  | fuel + 1, c :: cs =>
    if c = '"' then some ("", cs)
    else if c = '\\' then
      match cs with
      | e :: cs' =>
        let esc : Option Char :=
          if e = '"' then some '"'
          else if e = '\\' then some '\\'
          else if e = '/' then some '/'
          else if e = 'n' then some '\n'
          else if e = 't' then some '\t'
          else if e = 'r' then some '\r'
          else if e = 'b' then some (Char.ofNat 8)
          else if e = 'f' then some (Char.ofNat 12)
          else none
        match esc with
        | some ch => (parseJStr fuel cs').map (fun p => (String.mk (ch :: p.1.data), p.2))
        | none => none
      | [] => none
    else (parseJStr fuel cs).map (fun p => (String.mk (c :: p.1.data), p.2))

def parseJInt (cs : List Char) : Option (Int × List Char) :=
  let (neg, cs') := match cs with
    | '-' :: rest => (true, rest)
    | _ => (false, cs)
  let digits := cs'.takeWhile Char.isDigit
  if digits.isEmpty then none
  else
    match cs'.drop digits.length with
    | c :: _ =>
      if c = '.' || c = 'e' || c = 'E' then none
      else
        let n : Int := Int.ofNat ((String.mk digits).toNat!)
        some (if neg then -n else n, cs'.drop digits.length)
    | [] =>
      let n : Int := Int.ofNat ((String.mk digits).toNat!)
      some (if neg then -n else n, [])

mutual

def parseJValue : Nat → List Char → Option (Value × List Char)
  | 0, _ => none
  | fuel + 1, cs =>
    match skipWs cs with
    | [] => none
    | c :: rest =>
      if c = '"' then (parseJStr (rest.length + 1) rest).map (fun p => (Value.str p.1, p.2))
      else if c = '\x7b' then parseJObj fuel (skipWs rest)
      else if c = '[' then parseJArr fuel (skipWs rest)
      else if startsWithSeq "true".data (c :: rest) then
        some (Value.bool true, (c :: rest).drop 4)
      else if startsWithSeq "false".data (c :: rest) then
        some (Value.bool false, (c :: rest).drop 5)
      else if startsWithSeq "null".data (c :: rest) then
        some (Value.null, (c :: rest).drop 4)
      else (parseJInt (c :: rest)).map (fun p => (Value.num p.1, p.2))

/-- After the opening brace (whitespace skipped). -/
def parseJObj : Nat → List Char → Option (Value × List Char)
  | 0, _ => none
  | fuel + 1, cs =>
    match cs with
    | '\x7d' :: rest => some (Value.obj [], rest)
    | _ => (parseJMembers fuel cs).map (fun p => (Value.obj p.1, p.2))

def parseJMembers : Nat → List Char → Option (List (String × Value) × List Char)
  | 0, _ => none
  | fuel + 1, cs =>
    match cs with
    | '"' :: rest => do
      let (key, afterKey) ← parseJStr (rest.length + 1) rest
      match skipWs afterKey with
      | ':' :: afterColon => do
        let (v, afterVal) ← parseJValue fuel afterColon
        match skipWs afterVal with
        | ',' :: afterComma => do
          let (more, rest') ← parseJMembers fuel (skipWs afterComma)
          pure ((key, v) :: more, rest')
        | '\x7d' :: rest' => pure ([(key, v)], rest')
        | _ => none
      | _ => none
    | _ => none

/-- After the opening bracket (whitespace skipped). -/
def parseJArr : Nat → List Char → Option (Value × List Char)
  | 0, _ => none
  | fuel + 1, cs =>
    match cs with
    | ']' :: rest => some (Value.arr [], rest)
    | _ => (parseJElems fuel cs).map (fun p => (Value.arr p.1, p.2))

def parseJElems : Nat → List Char → Option (List Value × List Char)
  | 0, _ => none
  | fuel + 1, cs => do
    let (v, afterVal) ← parseJValue fuel cs
    match skipWs afterVal with
    | ',' :: afterComma => do
      let (more, rest') ← parseJElems fuel (skipWs afterComma)
      pure (v :: more, rest')
    | ']' :: rest' => pure ([v], rest')
    | _ => none

end

/-- `json.loads(s)`: parse, then require only trailing whitespace. The fuel
bound is generous: every recursive parsing step consumes fuel at most as
fast as it consumes input tokens. -/
def jsonLoads (s : String) : Option Value :=
  match parseJValue (2 * s.data.length + 2) s.data with
  | some (v, rest) => if (skipWs rest).isEmpty then some v else none
  | none => none

/-! ## `ResumePDFGenerator.process_section` (src/main.py:539-613) -/

/-- The section kinds that expect a list of records (src/main.py:549). -/
def listSectionNames : List String :=
  ["experience", "education", "projects", "certifications", "publications"]

/-- The placeholder education list built for a bare-string education payload
(src/main.py:554-558 and, identically, 652-656). -/
def educationCanonEntry (s : String) : Value :=
  .arr [.obj [("institution", .str "From Resume Text"),
              ("degree", .str "Education Information"),
              ("details", .arr [.str (strTake 500 s
                ++ (if 500 < pyLen s then "..." else ""))])]]

/-- The `section_handlers` registry (src/main.py:408-415). -/
def sectionHandlerProcess (sectionName : String) (content : Value) :
    Option (Except String (List Flowable)) :=
  if sectionName = "experience" then some (experienceProcess content)
  else if sectionName = "skills" then some (skillsProcess content)
  else if sectionName = "education" then some (educationProcess content)
  else if sectionName = "projects" then some (projectsProcess content)
  else none

/-- Default handling for unrecognized sections (src/main.py:586-608):
strings become a paragraph, list elements become bullets (strings) or
bold key / string-value pairs (dicts, list values not expanded there),
dict entries become bold key lines with string values as content
paragraphs and list-of-string values as bullets. Anything else
contributes nothing. -/
def defaultSectionRender (content : Value) : List Flowable :=
  match content with
  | .str s => [Flowable.para s "Normal"]
  | .arr items =>
    items.flatMap (fun item =>
      match item with
      | .str s => [Flowable.para (bullet ++ " " ++ s) "ListItem"]
      | .obj fields =>
        fields.flatMap (fun kv =>
          Flowable.para ("<b>" ++ kv.1 ++ "</b>") "Normal" ::
          (match kv.2 with
           | .str s => [Flowable.para s "Content"]
           | _ => []))
      | _ => [])
  | .obj fields =>
    fields.flatMap (fun kv =>
      Flowable.para ("<b>" ++ kv.1 ++ "</b>") "Normal" ::
      (match kv.2 with
       | .str s => [Flowable.para s "Content"]
       | .arr items =>
         items.flatMap (fun item =>
           match item with
           | .str s => [Flowable.para (bullet ++ " " ++ s) "ListItem"]
           | _ => [])
       | _ => []))
  | _ => []

/-- The body of `process_section`'s `try` block: string payloads get
per-kind fallbacks (an education placeholder record, or an error block plus
a 250-character preview for the other list sections and skills), other
payloads are dispatched to the registered handler or the default renderer.
A `.error` is an exception reaching the section boundary. -/
def processSectionBody (sectionName : String) (content : Value) :
    Except String (List Flowable) :=
  match content with
  | .str s =>
    if listSectionNames.contains sectionName then
      if sectionName = "education" then educationProcess (educationCanonEntry s)
      else
        .ok [Flowable.para ("Error: Invalid data format for " ++ sectionName) "Error",
             Flowable.para (strTake 250 s ++ "...") "Normal"]
    else if sectionName = "skills" then
      .ok [Flowable.para ("Error: Invalid data format for " ++ sectionName) "Error",
           Flowable.para (strTake 250 s ++ "...") "Normal"]
    else .ok [Flowable.para s "Normal"]
  | _ =>
    match sectionHandlerProcess sectionName content with
    | some r => r
    | none => .ok (defaultSectionRender content)

/-- The single error-styled block substituted at the section boundary
(src/main.py:609-613). -/
def errorBlock (sectionName msg : String) : Flowable :=
  Flowable.para ("Error processing " ++ sectionName ++ ": " ++ msg) "Error"

/-- `ResumePDFGenerator.process_section`: the `try`/`except` wrapper. -/
def process_section (sectionName : String) (content : Value) : List Flowable :=
  match processSectionBody sectionName content with
  | .ok blocks => blocks
  | .error e => [errorBlock sectionName e]

/-! ## `ResumePDFGenerator.create_header_section` and `format_contact_info`
(src/main.py:715-757, 806-857) -/

/-- `format_contact_info` (src/main.py:715-745): email/phone on one centered
line, github/linkedin on a second, each with its marker glyph (copied from
the source file as stored). -/
def format_contact_info (fields : List (String × Value)) : String :=
  let emailPart :=
    match lookupAssoc fields "email" with
    | some v => if pyTruthy v then ["‚úâÔ∏è " ++ pyStr v] else []
    | none => []
  let phonePart :=
    match lookupAssoc fields "phone" with
    | some v => if pyTruthy v then ["üìû " ++ pyStr v] else []
    | none => []
  let contactParts := emailPart ++ phonePart
  let githubPart :=
    match lookupAssoc fields "github" with
    | some v => if pyTruthy v then ["üîó " ++ pyStr v] else []
    | none => []
  let linkedinPart :=
    match lookupAssoc fields "linkedin" with
    | some v => if pyTruthy v then ["üîó " ++ pyStr v] else []
    | none => []
  let socialParts := githubPart ++ linkedinPart
  let contactText :=
    if !contactParts.isEmpty then
      "<div align=\x27center\x27>" ++ String.intercalate " | " contactParts ++ "</div>"
    else ""
  if !socialParts.isEmpty then
    contactText ++ "<div align=\x27center\x27>" ++ String.intercalate " | " socialParts ++ "</div>"
  else contactText

/-- The contact fields whose presence (and truthiness) triggers the contact
line (src/main.py:838-843); `website` counts for presence but is never
rendered by `format_contact_info`. -/
def contactFieldNames : List String := ["email", "phone", "linkedin", "github", "website"]

def defaultNamePara : Flowable :=
  Flowable.para "<div align=\x27center\x27>Resume</div>" "HeaderName"

/-- `create_header_section` (src/main.py:806-857): re-validate the record
(parsing strings as JSON, falling back to a name-only error record), emit
the centered name (or a generic "Resume"), then the contact line and a
spacer when any contact field is present and truthy. -/
def create_header_section (d : Value) : List Flowable :=
  let d' : Value :=
    match d with
    | .obj _ => d
    | .str s => (jsonLoads s).getD (.obj [("name", .str "Error Processing Resume")])
    | _ => .obj [("name", .str "Error Processing Resume")]
  let namePara :=
    match d' with
    | .obj fields =>
      match lookupAssoc fields "name" with
      | some n =>
        if pyTruthy n then
          Flowable.para ("<div align=\x27center\x27>" ++ pyStr n ++ "</div>") "HeaderName"
        else defaultNamePara
      | none => defaultNamePara
    | _ => defaultNamePara
  let contactBlocks :=
    match d' with
    | .obj fields =>
      if contactFieldNames.any (fun f =>
          match lookupAssoc fields f with
          | some v => pyTruthy v
          | none => false) then
        [Flowable.para (format_contact_info fields) "Contact", Flowable.spacer 1 5]
      else []
    | _ => []
  namePara :: contactBlocks

/-! ## `ResumePDFGenerator.process_resume` (src/main.py:615-713) -/

/-- The fixed section order (src/main.py:641). -/
def section_order : List String :=
  ["summary", "skills", "experience", "education", "projects", "certifications",
   "publications"]

/-- The reserved identity fields plus the fixed-order sections
(src/main.py:688-689). -/
def skipFields : List String :=
  ["name", "email", "phone", "linkedin", "github", "website", "location", "summary"]
  ++ section_order

/-- The replacement record installed when the top-level value is not a
mapping and cannot be JSON-parsed into one (src/main.py:632, 635). -/
def errorRecordFull : Value :=
  .obj [("name", .str "Error Processing Resume"),
        ("summary", .str "Invalid resume data format")]

/-- Top-level validation of `process_resume` (src/main.py:622-635): strings
are JSON-parsed (keeping whatever value results), all other non-dicts are
replaced by the error record. -/
def validateResumeData (resumeData : Value) : Value :=
  match resumeData with
  | .obj _ => resumeData
  | .str s =>
    match jsonLoads s with
    | some v => v
    | none => errorRecordFull
  | _ => errorRecordFull

/-- The dummy education entry for a truthy education payload that is neither
a string, a list nor a dict (src/main.py:666-671). -/
def educationDummyEntry (other : Value) : Value :=
  .arr [.obj [("institution", .str "Invalid Format"),
              ("degree", .str "Could not parse education data"),
              ("details", .arr [.str ("Original type: " ++ pyTypeName other)])]]

/-- `Value.obj fields` update, leaving non-dict values untouched (a dict is
the only shape reaching the assignment in the source). -/
def pySetItem (record : Value) (k : String) (v : Value) : Value :=
  match record with
  | .obj fs => .obj (updateField fs k v)
  | other => other

/-- One iteration of the fixed-order section loop (src/main.py:643-685).
The `section in resume_data and resume_data[section]` test sits outside the
inner `try`, so a `TypeError` there propagates to the outer handler; the
loop body itself (education canonicalization — which mutates the record in
place — plus title, divider and `process_section`) cannot raise in this
model. Returns the blocks emitted and the possibly-mutated record. -/
def fixedStepE (record : Value) (sectionName : String) :
    Except String (List Flowable × Value) := do
  let present ← pyContains record sectionName
  if present then do
    let v ← pyGetItem record sectionName
    if pyTruthy v then
      let (v2, record') :=
        if sectionName = "education" then
          match v with
          | .str s => (educationCanonEntry s, pySetItem record "education" (educationCanonEntry s))
          | .arr _ => (v, record)
          | .obj _ => (Value.arr [v], pySetItem record sectionName (Value.arr [v]))
          | other => (educationDummyEntry other,
                      pySetItem record sectionName (educationDummyEntry other))
        else (v, record)
      pure ([Flowable.para (humanize sectionName) "SectionHeader", Flowable.hrDivider]
        ++ process_section sectionName v2, record')
    else pure ([], record)
  else pure ([], record)

/-- The fixed-order loop: thread the record and the accumulated
`main_content`; an uncaught `TypeError` stops the loop and surfaces to the
outer handler, keeping the content built so far. -/
def fixedLoop : List String → Value → List Flowable →
    List Flowable × Value × Option String
  | [], record, main => (main, record, none)
  | sect :: rest, record, main =>
    match fixedStepE record sect with
    | .ok (blocks, record') => fixedLoop rest record' (main ++ blocks)
    | .error e => (main, record, some e)

/-- One remaining-key section: humanized title, divider, rendered content
(src/main.py:691-706). -/
def otherSectionBlocks (kv : String × Value) : List Flowable :=
  [Flowable.para (humanize kv.1) "SectionHeader", Flowable.hrDivider]
  ++ process_section kv.1 kv.2

/-- The remaining-keys loop (src/main.py:687-706): every key outside
`skip_fields` whose value `is not None`, in the record's order. -/
def remainingBlocks (fields : List (String × Value)) : List Flowable :=
  (fields.filter (fun kv => !skipFields.contains kv.1 && !(kv.2 == Value.null))).flatMap
    otherSectionBlocks

/-- The two paragraphs appended by the outer `except` handler
(src/main.py:707-713). -/
def outerCatchBlocks (e : String) : List Flowable :=
  [Flowable.para "Error Processing Resume" "HeaderName",
   Flowable.para ("An error occurred while processing this resume: " ++ e) "Normal"]

def itemsAttrError (v : Value) : String :=
  "AttributeError: \x27" ++ pyTypeShort v ++ "\x27 object has no attribute \x27items\x27"

/-- `ResumePDFGenerator.process_resume`: validation, header, fixed-order
loop, remaining-keys loop, with the outer `except` absorbing any uncaught
exception. Returns `(header_elements, main_content, final record)` — the
final record exposes the in-place mutation performed by the education
canonicalization. -/
def process_resume (resumeData : Value) : List Flowable × List Flowable × Value :=
  let record0 := validateResumeData resumeData
  let header := create_header_section record0
  match fixedLoop section_order record0 [] with
  | (mainFixed, record1, some e) => (header, mainFixed ++ outerCatchBlocks e, record1)
  | (mainFixed, record1, none) =>
    match record1 with
    | .obj fields => (header, mainFixed ++ remainingBlocks fields, record1)
    | other => (header, mainFixed ++ outerCatchBlocks (itemsAttrError other), record1)

/-- Lookup on the final record returned by `process_resume`. -/
def vLookup (v : Value) (k : String) : Option Value :=
  match v with
  | .obj fields => lookupAssoc fields k
  | _ => none

/-- `v` is a dict. -/
def Value.isObjB : Value → Bool
  | .obj _ => true
  | _ => false

/-- `v` is a string. -/
def Value.isStrB : Value → Bool
  | .str _ => true
  | _ => false

/-- A character that cannot start any match of the highlighter's regex: not
a digit, not `$`, and its lowercase form is none of the keywords' first
letters. -/
def nonTriggerChar (c : Char) : Bool :=
  !c.isDigit && !(c = '$') && !(['i', 'd', 'l', 'c'].contains c.toLower)

/-! ## Supporting lemmas -/

theorem lookupAssoc_cons_ne {α : Type} (k' k : String) (v : α) (l : List (String × α))
    (h : k' ≠ k) : lookupAssoc ((k', v) :: l) k = lookupAssoc l k := by
  simp [lookupAssoc, h]

theorem matchKeywordExtra_none (c : Char) (cs : List Char)
    (h : (['i', 'd', 'l', 'c'].contains c.toLower) = false) :
    matchKeywordExtra keywordList c cs = none := by
  have hc : ∀ k : Char, c.toLower = k → (['i', 'd', 'l', 'c'].contains k) = true →
      False := by
    intro k hk hmem
    rw [hk] at h
    rw [h] at hmem
    exact Bool.false_ne_true hmem
  simp only [keywordList, matchKeywordExtra]
  split
  · next h1 =>
    rw [List.map_cons] at h1
    exact (hc _ ((List.cons.injEq _ _ _ _).mp h1).1 (by decide)).elim
  split
  · next h1 =>
    rw [List.map_cons] at h1
    exact (hc _ ((List.cons.injEq _ _ _ _).mp h1).1 (by decide)).elim
  split
  · next h1 =>
    rw [List.map_cons] at h1
    exact (hc _ ((List.cons.injEq _ _ _ _).mp h1).1 (by decide)).elim
  split
  · next h1 =>
    rw [List.map_cons] at h1
    exact (hc _ ((List.cons.injEq _ _ _ _).mp h1).1 (by decide)).elim
  split
  · next h1 =>
    rw [List.map_cons] at h1
    exact (hc _ ((List.cons.injEq _ _ _ _).mp h1).1 (by decide)).elim
  split
  · next h1 =>
    rw [List.map_cons] at h1
    exact (hc _ ((List.cons.injEq _ _ _ _).mp h1).1 (by decide)).elim
  rfl

theorem matchExtra_none (c : Char) (cs : List Char) (h : nonTriggerChar c = true) :
    matchExtra c cs = none := by
  simp only [nonTriggerChar, Bool.and_eq_true, Bool.not_eq_true'] at h
  obtain ⟨⟨h1, h2⟩, h3⟩ := h
  simp only [matchExtra, h1, decide_eq_true_eq]
  rw [if_neg (by simp [h2]), if_neg (by intro hcd; rw [hcd] at h2; simp at h2)]
  exact matchKeywordExtra_none c cs h3

theorem highlightAux_id (fuel : Nat) (cs : List Char)
    (h : ∀ c ∈ cs, nonTriggerChar c = true) : highlightAux fuel cs = cs := by
  induction fuel generalizing cs with
  | zero => cases cs <;> rfl
  | succ n ih =>
    cases cs with
    | nil => rfl
    | cons c cs' =>
      have hc := h c (by simp)
      rw [highlightAux, matchExtra_none c cs' hc]
      exact congrArg (c :: ·) (ih cs' (fun x hx => h x (by simp [hx])))

/-- The record resulting from one fixed-order iteration on a dict: only a
truthy non-list `education` value is replaced (in place) by its
canonicalized list. -/
def fixedStepFields (fields : List (String × Value)) (sect : String) :
    List (String × Value) :=
  match lookupAssoc fields sect with
  | some v =>
    if pyTruthy v then
      if sect = "education" then
        match v with
        | .str s => updateField fields "education" (educationCanonEntry s)
        | .arr _ => fields
        | .obj _ => updateField fields sect (Value.arr [v])
        | _ => updateField fields sect (educationDummyEntry v)
      else fields
    else fields
  | none => fields

/-- The blocks emitted by one fixed-order iteration on a dict. -/
def fixedStepBlocks (fields : List (String × Value)) (sect : String) : List Flowable :=
  match lookupAssoc fields sect with
  | some v =>
    if pyTruthy v then
      let v2 :=
        if sect = "education" then
          match v with
          | .str s => educationCanonEntry s
          | .arr _ => v
          | .obj _ => Value.arr [v]
          | _ => educationDummyEntry v
        else v
      [Flowable.para (humanize sect) "SectionHeader", Flowable.hrDivider]
        ++ process_section sect v2
    else []
  | none => []

theorem fixedStepE_obj (fields : List (String × Value)) (sect : String) :
    fixedStepE (Value.obj fields) sect
      = .ok (fixedStepBlocks fields sect, Value.obj (fixedStepFields fields sect)) := by
  unfold fixedStepE fixedStepBlocks fixedStepFields
  simp only [pyContains, pyGetItem, Bind.bind, Except.bind]
  cases hl : lookupAssoc fields sect with
  | none => simp [pure, Except.pure]
  | some v =>
    simp only [Option.isSome_some, if_true]
    by_cases ht : pyTruthy v
    · by_cases hs : sect = "education"
      · subst hs
        cases v <;> simp [ht, pySetItem, pure, Except.pure]
      · simp [ht, hs, pure, Except.pure]
    · simp [ht, pure, Except.pure]

theorem fixedLoop_obj (sections : List String) (fields : List (String × Value))
    (main : List Flowable) :
    ∃ blocks, fixedLoop sections (Value.obj fields) main
      = (main ++ blocks,
         Value.obj (sections.foldl (fun fs sect => fixedStepFields fs sect) fields),
         none) := by
  induction sections generalizing fields main with
  | nil => exact ⟨[], by simp [fixedLoop]⟩
  | cons s rest ih =>
    obtain ⟨b2, h2⟩ := ih (fixedStepFields fields s) (main ++ fixedStepBlocks fields s)
    refine ⟨fixedStepBlocks fields s ++ b2, ?_⟩
    rw [fixedLoop, fixedStepE_obj]
    show fixedLoop rest (Value.obj (fixedStepFields fields s))
        (main ++ fixedStepBlocks fields s) = _
    rw [h2, List.foldl_cons, List.append_assoc]

theorem lookup_updateField_ne (fields : List (String × Value)) (key k : String)
    (v : Value) (h : k ≠ key) :
    lookupAssoc (updateField fields key v) k = lookupAssoc fields k := by
  induction fields with
  | nil => simp [updateField, lookupAssoc, Ne.symm h]
  | cons a rest ih =>
    obtain ⟨k', v'⟩ := a
    by_cases hk : k' = key
    · subst hk
      simp [updateField, lookupAssoc, h, Ne.symm h]
    · simp only [updateField, if_neg hk]
      by_cases hq : k' = k
      · subst hq
        simp [lookupAssoc]
      · simp [lookupAssoc, hq, ih]

theorem fixedStepFields_lookup_ne (fields : List (String × Value)) (sect k : String)
    (h : k ≠ "education") :
    lookupAssoc (fixedStepFields fields sect) k = lookupAssoc fields k := by
  unfold fixedStepFields
  cases hl : lookupAssoc fields sect with
  | none => rfl
  | some v =>
    by_cases ht : pyTruthy v
    · by_cases hs : sect = "education"
      · subst hs
        cases v <;> simp [ht, lookup_updateField_ne _ _ _ _ h]
      · simp [ht, hs]
    · simp [ht]

theorem fixedStepFields_id_of_not_edu (fields : List (String × Value)) (sect : String)
    (h : sect ≠ "education") : fixedStepFields fields sect = fields := by
  unfold fixedStepFields
  cases lookupAssoc fields sect with
  | none => rfl
  | some v => simp [h]

theorem fixedStepFields_id_of_edu_ok (fields : List (String × Value)) (sect : String)
    (h : lookupAssoc fields "education" = none
      ∨ ∃ l, lookupAssoc fields "education" = some (Value.arr l)) :
    fixedStepFields fields sect = fields := by
  by_cases hs : sect = "education"
  · subst hs
    unfold fixedStepFields
    rcases h with h | ⟨l, h⟩ <;> rw [h]
    simp
  · exact fixedStepFields_id_of_not_edu fields sect hs

theorem foldl_fixedStepFields_lookup_ne (sections : List String)
    (fields : List (String × Value)) (k : String) (h : k ≠ "education") :
    lookupAssoc (sections.foldl (fun fs sect => fixedStepFields fs sect) fields) k
      = lookupAssoc fields k := by
  induction sections generalizing fields with
  | nil => rfl
  | cons s rest ih =>
    rw [List.foldl_cons, ih (fixedStepFields fields s),
      fixedStepFields_lookup_ne fields s k h]

theorem foldl_fixedStepFields_id (sections : List String)
    (fields : List (String × Value))
    (h : lookupAssoc fields "education" = none
      ∨ ∃ l, lookupAssoc fields "education" = some (Value.arr l)) :
    sections.foldl (fun fs sect => fixedStepFields fs sect) fields = fields := by
  induction sections with
  | nil => rfl
  | cons s rest ih =>
    rw [List.foldl_cons, fixedStepFields_id_of_edu_ok fields s h, ih]

theorem filter_updateField_edu (fields : List (String × Value)) (v : Value) :
    (updateField fields "education" v).filter
        (fun kv => !skipFields.contains kv.1 && !(kv.2 == Value.null))
      = fields.filter (fun kv => !skipFields.contains kv.1 && !(kv.2 == Value.null)) := by
  induction fields with
  | nil => rfl
  | cons a rest ih =>
    obtain ⟨k', v'⟩ := a
    by_cases hk : k' = "education"
    · subst hk
      rfl
    · rw [show updateField ((k', v') :: rest) "education" v
            = (k', v') :: updateField rest "education" v from by
          simp [updateField, hk],
        List.filter_cons, List.filter_cons, ih]

theorem fixedStepFields_filter (fields : List (String × Value)) (sect : String) :
    (fixedStepFields fields sect).filter
        (fun kv => !skipFields.contains kv.1 && !(kv.2 == Value.null))
      = fields.filter (fun kv => !skipFields.contains kv.1 && !(kv.2 == Value.null)) := by
  unfold fixedStepFields
  split
  · split
    · split
      · next hs =>
        subst hs
        split <;> first | rfl | exact filter_updateField_edu fields _
      · rfl
    · rfl
  · rfl

theorem foldl_fixedStepFields_filter (sections : List String)
    (fields : List (String × Value)) :
    (sections.foldl (fun fs sect => fixedStepFields fs sect) fields).filter
        (fun kv => !skipFields.contains kv.1 && !(kv.2 == Value.null))
      = fields.filter (fun kv => !skipFields.contains kv.1 && !(kv.2 == Value.null)) := by
  induction sections generalizing fields with
  | nil => rfl
  | cons s rest ih =>
    rw [List.foldl_cons, ih (fixedStepFields fields s), fixedStepFields_filter]

/-- On a dict input, `process_resume`'s components in terms of the loop
scaffolding: the fixed-order loop never hits the outer handler, and the
final record is the fold of the per-section field updates. -/
theorem process_resume_obj (fields : List (String × Value)) :
    ∃ blocks,
      fixedLoop section_order (Value.obj fields) [] =
        (blocks,
         Value.obj (section_order.foldl (fun fs sect => fixedStepFields fs sect) fields),
         none)
      ∧ process_resume (Value.obj fields)
        = (create_header_section (Value.obj fields),
           blocks ++ remainingBlocks
             (section_order.foldl (fun fs sect => fixedStepFields fs sect) fields),
           Value.obj (section_order.foldl (fun fs sect => fixedStepFields fs sect) fields)) := by
  obtain ⟨blocks, hfl⟩ := fixedLoop_obj section_order fields []
  rw [List.nil_append] at hfl
  refine ⟨blocks, hfl, ?_⟩
  simp only [process_resume, validateResumeData]
  rw [hfl]

/-! ## Claim theorems -/

/-- C5: For every theme name, including unrecognized ones, the style catalog
built by `setup_styles` contains every named style any renderer or the
assembler looks up (HeaderName, Contact, Error, HeaderTitle, SectionHeader,
ListItem, Content, SkillItem, ExperienceTitle, JobTitle, ExperienceDetails,
Normal), so no style lookup performed during rendering can fail. -/
theorem c5_style_catalog_complete (theme : String) :
    requiredStyleNames.all
      (fun n => (lookupAssoc (setup_styles theme) n).isSome) = true := by
  rfl

/-- C5 witness: the catalog completeness instantiated at an unknown theme
name. -/
theorem c5_style_catalog_complete_witness :
    requiredStyleNames.all
      (fun n => (lookupAssoc (setup_styles "no-such-theme") n).isSome) = true :=
  c5_style_catalog_complete "no-such-theme"

/-- C9: The responsibility highlighter bolds exactly the regex matches —
`"increased revenue by 20%"` gets both `increased` and `20%` bolded and
nothing else, keywords match case-insensitively keeping their original
case, currency amounts are bolded — and a string none of whose characters
can start a match (no digit, no `$`, no keyword first letter) is returned
completely unchanged. -/
theorem c9_responsibility_highlighter :
    formatResponsibility "increased revenue by 20%"
        = "<b>increased</b> revenue by <b>20%</b>"
    ∧ formatResponsibility "Developed apps" = "<b>Developed</b> apps"
    ∧ formatResponsibility "$1,200 saved" = "<b>$1,200</b> saved"
    ∧ ∀ s : String, s.data.all nonTriggerChar = true → formatResponsibility s = s := by
  refine ⟨rfl, rfl, rfl, fun s h => ?_⟩
  unfold formatResponsibility
  rw [highlightAux_id _ _ (by simpa [List.all_eq_true] using h)]

/-- C9 witness: the unchanged-text clause of `c9_responsibility_highlighter`
applied at a concrete match-free string. -/
theorem c9_responsibility_highlighter_witness :
    formatResponsibility " -- , ; " = " -- , ; " :=
  c9_responsibility_highlighter.2.2.2 " -- , ; " (by decide)

/-- C2 counterexample: a bare-string `experience` payload is NOT wrapped
into a placeholder record with the text truncated at 500 characters and an
ellipsis only if longer; instead `process_section` returns an error-styled
block plus the text truncated at 250 characters with an ellipsis appended
unconditionally — here the 11-character input already gets `...`. -/
theorem c2_counterexample_experience_string :
    process_section "experience" (Value.str "worked hard")
        = [Flowable.para "Error: Invalid data format for experience" "Error",
           Flowable.para "worked hard..." "Normal"]
    ∧ pyLen "worked hard" ≤ 500 := by
  exact ⟨rfl, by decide⟩

/-- C2 amended: only the `education` kind wraps a bare-string payload into a
single placeholder record whose `details` carry the text truncated at 500
characters with an ellipsis exactly when longer; for the other
list-of-records kinds (experience, projects, certifications, publications)
a string payload instead yields an error-format block plus the text
truncated at 250 characters with an ellipsis appended unconditionally.
The education placeholder also arrives through `process_resume`, where the
spec's example string is preserved verbatim (37 characters, no ellipsis). -/
theorem c2_amended_string_payloads :
    (∀ s : String,
      process_section "education" (Value.str s)
        = [Flowable.para
             "<table width=\x27100%\x27><tr><td><b>From Resume Text</b></td></tr></table>"
             "ExperienceTitle",
           Flowable.para "<i>Education Information</i>" "JobTitle",
           Flowable.spacer 1 5,
           Flowable.para (bullet ++ " " ++ (strTake 500 s
             ++ (if 500 < pyLen s then "..." else ""))) "ListItem",
           Flowable.spacer 1 10])
    ∧ (∀ s : String, ∀ sect ∈ (["experience", "projects", "certifications",
          "publications"] : List String),
        process_section sect (Value.str s)
          = [Flowable.para ("Error: Invalid data format for " ++ sect) "Error",
             Flowable.para (strTake 250 s ++ "...") "Normal"])
    ∧ (process_resume
          (Value.obj [("education", Value.str "BS Computer Science, State University")])).2.1
        = [Flowable.para "Education" "SectionHeader", Flowable.hrDivider,
           Flowable.para
             "<table width=\x27100%\x27><tr><td><b>From Resume Text</b></td></tr></table>"
             "ExperienceTitle",
           Flowable.para "<i>Education Information</i>" "JobTitle",
           Flowable.spacer 1 5,
           Flowable.para (bullet ++ " BS Computer Science, State University") "ListItem",
           Flowable.spacer 1 10] := by
  refine ⟨fun s => rfl, fun s sect hs => ?_, rfl⟩
  simp only [List.mem_cons, List.not_mem_nil, or_false] at hs
  rcases hs with h | h | h | h <;> subst h <;> rfl

/-- C2 amended witness: the quantified clauses of `c2_amended_string_payloads`
applied at concrete inputs. -/
theorem c2_amended_string_payloads_witness :
    process_section "projects" (Value.str "ad hoc text")
      = [Flowable.para "Error: Invalid data format for projects" "Error",
         Flowable.para "ad hoc text..." "Normal"] :=
  c2_amended_string_payloads.2.1 "ad hoc text" "projects" (by decide)

/-- C3 counterexample: the claim quantifies over every non-mapping input,
but a string input that parses as a JSON mapping is NOT replaced by an
error page: `process_resume` parses it and performs ordinary per-section
processing of the parsed value (here a `Summary` section with the payload's
text), with no explanatory error paragraph. -/
theorem c3_counterexample_json_string :
    process_resume (Value.str "\x7b\"summary\": \"hello\"\x7d")
      = ([Flowable.para "<div align=\x27center\x27>Resume</div>" "HeaderName"],
         [Flowable.para "Summary" "SectionHeader", Flowable.hrDivider,
          Flowable.para "hello" "Normal"],
         Value.obj [("summary", Value.str "hello")]) := by
  rfl

/-- C3 amended: for `null` and every other non-string non-mapping input, and
for a string input that fails to parse as JSON, `process_resume` substitutes
the record `\x7bname: Error Processing Resume, summary: Invalid resume data
format\x7d` and produces — with no exception — a header naming the error
followed by a `Summary` section heading, a divider and a single explanatory
paragraph; a string that parses as a JSON mapping is processed as that
mapping instead. -/
theorem c3_amended_error_page :
    (∀ v : Value, v.isObjB = false → v.isStrB = false →
      process_resume v
        = ([Flowable.para "<div align=\x27center\x27>Error Processing Resume</div>"
              "HeaderName"],
           [Flowable.para "Summary" "SectionHeader", Flowable.hrDivider,
            Flowable.para "Invalid resume data format" "Normal"],
           errorRecordFull))
    ∧ process_resume (Value.str "this is not json")
        = ([Flowable.para "<div align=\x27center\x27>Error Processing Resume</div>"
              "HeaderName"],
           [Flowable.para "Summary" "SectionHeader", Flowable.hrDivider,
            Flowable.para "Invalid resume data format" "Normal"],
           errorRecordFull) := by
  refine ⟨fun v h1 h2 => ?_, rfl⟩
  cases v with
  | null => rfl
  | bool b => rfl
  | num n => rfl
  | arr items => rfl
  | str s => exact absurd h2 (by simp [Value.isStrB])
  | obj fields => exact absurd h1 (by simp [Value.isObjB])

/-- C3 amended witness: `c3_amended_error_page` applied at the non-mapping
input `5`. -/
theorem c3_amended_error_page_witness :
    process_resume (Value.num 5)
      = ([Flowable.para "<div align=\x27center\x27>Error Processing Resume</div>"
            "HeaderName"],
         [Flowable.para "Summary" "SectionHeader", Flowable.hrDivider,
          Flowable.para "Invalid resume data format" "Normal"],
         errorRecordFull) :=
  c3_amended_error_page.1 (Value.num 5) (by decide) (by decide)

theorem mapM_ok_of_mem {f : Value → Except String (List Flowable)} :
    ∀ (items : List Value) (bss : List (List Flowable)),
      items.mapM f = .ok bss → ∀ x ∈ items, ∃ ebs, f x = .ok ebs := by
  intro items
  induction items with
  | nil => intro bss h x hx; exact absurd hx (List.not_mem_nil x)
  | cons a t ih =>
    intro bss h x hx
    rw [List.mapM_cons] at h
    cases hfa : f a with
    | error e =>
      rw [hfa] at h
      simp only [Bind.bind, Except.bind] at h
      exact Except.noConfusion h
    | ok ba =>
      rw [hfa] at h
      cases hft : t.mapM f with
      | error e =>
        rw [hft] at h
        simp only [Bind.bind, Except.bind, Functor.map, Except.map] at h
        exact Except.noConfusion h
      | ok bt =>
        rcases List.mem_cons.mp hx with hxa | hxt
        · exact ⟨ba, hxa ▸ hfa⟩
        · exact ih bt hft x hxt

theorem mapM_ok_mem_flatten {f : Value → Except String (List Flowable)} :
    ∀ (items : List Value) (bss : List (List Flowable)),
      items.mapM f = .ok bss →
      ∀ x ∈ items, ∀ ebs, f x = .ok ebs → ∀ b ∈ ebs, b ∈ bss.flatten := by
  intro items
  induction items with
  | nil => intro bss h x hx; exact absurd hx (List.not_mem_nil x)
  | cons a t ih =>
    intro bss h x hx ebs hfx b hb
    rw [List.mapM_cons] at h
    cases hfa : f a with
    | error e =>
      rw [hfa] at h
      simp only [Bind.bind, Except.bind] at h
      exact Except.noConfusion h
    | ok ba =>
      rw [hfa] at h
      cases hft : t.mapM f with
      | error e =>
        rw [hft] at h
        simp only [Bind.bind, Except.bind, Functor.map, Except.map] at h
        exact Except.noConfusion h
      | ok bt =>
        rw [hft] at h
        simp only [Bind.bind, Except.bind, Functor.map, Except.map] at h
        have hbss : bss = ba :: bt := by
          cases h
          rfl
        subst hbss
        rw [List.flatten_cons]
        rcases List.mem_cons.mp hx with hxa | hxt
        · subst hxa
          rw [hfa] at hfx
          have : ba = ebs := by cases hfx; rfl
          subst this
          exact List.mem_append_left _ hb
        · exact List.mem_append_right _ (ih bt hft x hxt ebs hfx b hb)

/-- C4 counterexample: in an `experience` list a non-record element is not
replaced by a visible "skipped invalid entry" marker — `'company' in 7`
raises `TypeError`, so the whole section (including the valid `Acme`
record) collapses into the single section-boundary error block. -/
theorem c4_counterexample_experience_nonrecord :
    process_section "experience"
        (Value.arr [Value.obj [("company", Value.str "Acme")], Value.num 7])
      = [Flowable.para
           "Error processing experience: TypeError: argument of type \x27int\x27 is not iterable"
           "Error"] := by
  rfl

/-- C4 amended: only the education renderer guarantees the claimed behavior:
whenever an education list renders without a section-level error, every
non-record element contributes its visible "skipped invalid entry" marker
and every record element's blocks still all appear in the output. In
`experience` a non-record element can raise, losing the whole section
(see the counterexample); `certifications`/`publications` go through the
default renderer, which keeps string elements as bullets but silently drops
other non-record elements. -/
theorem c4_amended_education_markers :
    (∀ (items : List Value) (bs : List Flowable),
        educationProcess (Value.arr items) = .ok bs →
        ∀ x ∈ items, x.isObjB = false → eduSkipMarker x ∈ bs)
    ∧ (∀ (items : List Value) (bs : List Flowable),
        educationProcess (Value.arr items) = .ok bs →
        ∀ fields, Value.obj fields ∈ items →
        ∃ ebs, eduRenderEntry fields = .ok ebs ∧ ∀ b ∈ ebs, b ∈ bs)
    ∧ process_section "certifications" (Value.arr [Value.str "Cert A", Value.num 3])
        = [Flowable.para (bullet ++ " Cert A") "ListItem"] := by
  have hun : ∀ (items : List Value) (bs : List Flowable),
      educationProcess (Value.arr items) = .ok bs →
      ∃ bss, items.mapM eduItemRender = .ok bss ∧ bs = bss.flatten := by
    intro items bs h
    have h' : (do
        let blockss ← items.mapM eduItemRender
        pure blockss.flatten : Except String (List Flowable)) = Except.ok bs := h
    cases hm : items.mapM eduItemRender with
    | error e =>
      rw [hm] at h'
      simp only [Bind.bind, Except.bind] at h'
      exact Except.noConfusion h'
    | ok bss =>
      rw [hm] at h'
      simp only [Bind.bind, Except.bind, pure, Except.pure] at h'
      exact ⟨bss, rfl, (Except.ok.inj h').symm⟩
  refine ⟨fun items bs h x hx hnd => ?_, fun items bs h fields hf => ?_, rfl⟩
  · obtain ⟨bss, hm, hbs⟩ := hun items bs h
    subst hbs
    have hfx : eduItemRender x = .ok [eduSkipMarker x] := by
      cases x <;> simp_all [eduItemRender, Value.isObjB]
    exact mapM_ok_mem_flatten items bss hm x hx _ hfx _ (by simp)
  · obtain ⟨bss, hm, hbs⟩ := hun items bs h
    subst hbs
    obtain ⟨ebs, he⟩ := mapM_ok_of_mem items bss hm _ hf
    have he' : eduRenderEntry fields = .ok ebs := he
    exact ⟨ebs, he', fun b hb =>
      mapM_ok_mem_flatten items bss hm _ hf ebs he b hb⟩

/-- C4 amended witness: the marker clause applied to a concrete education
list holding a record and the non-record `7`. -/
theorem c4_amended_education_markers_witness :
    eduSkipMarker (Value.num 7) ∈
      [Flowable.para
         "<table width=\x27100%\x27><tr><td><b>MIT</b></td></tr></table>"
         "ExperienceTitle",
       Flowable.spacer 1 10,
       Flowable.para
         "Skipped invalid education entry (not a dictionary): 7..." "Error"] :=
  c4_amended_education_markers.1
    [Value.obj [("institution", Value.str "MIT")], Value.num 7] _ rfl
    (Value.num 7) (List.Mem.tail _ (List.Mem.head _)) (by decide)

/-- C6 counterexample: two education entries identical up to the
`institution`/`school` and `date`/`dates` aliases do NOT always render the
same header line — the `school` alias branch drops the `location`, so with
a location present the primary-key entry shows "State U, NYC" while the
alias entry shows only "State U". -/
theorem c6_counterexample_alias_location :
    eduHeaderText [("institution", Value.str "State U"), ("date", Value.str "2020"),
        ("location", Value.str "NYC")]
      ≠ eduHeaderText [("school", Value.str "State U"), ("dates", Value.str "2020"),
        ("location", Value.str "NYC")] := by
  decide

/-- C6 amended: for education entries carrying no `location` binding (and no
colliding alias keys), an entry using `institution`/`date` and the entry
using `school`/`dates` with the same values render identically — the whole
record, header line included. -/
theorem c6_amended_alias_no_location (i d : Value) (rest : List (String × Value))
    (hInst : lookupAssoc rest "institution" = none)
    (hDate : lookupAssoc rest "date" = none)
    (hLoc : lookupAssoc rest "location" = none) :
    eduRenderEntry (("institution", i) :: ("date", d) :: rest)
      = eduRenderEntry (("school", i) :: ("dates", d) :: rest) := by
  simp [eduRenderEntry, eduHeaderText, lookupAssoc, hInst, hDate, hLoc]

/-- C6 amended witness: `c6_amended_alias_no_location` at a concrete entry
with a degree and no location. -/
theorem c6_amended_alias_no_location_witness :
    eduRenderEntry [("institution", Value.str "State U"), ("date", Value.str "2020"),
        ("degree", Value.str "BS")]
      = eduRenderEntry [("school", Value.str "State U"), ("dates", Value.str "2020"),
        ("degree", Value.str "BS")] :=
  c6_amended_alias_no_location (Value.str "State U") (Value.str "2020")
    [("degree", Value.str "BS")] rfl rfl rfl

/-- C10: when an experience record has no `company` key, the header line is
rendered with an empty left cell regardless of any `location` binding: the
rendered output does not depend on the location at all (first clause), and
concretely a record with only a location and a title shows neither of
company/location in its header. -/
theorem c10_location_requires_company :
    (∀ (v : Value) (fields : List (String × Value)),
        lookupAssoc fields "company" = none →
        lookupAssoc fields "location" = none →
        expProcessOne (Value.obj (("location", v) :: fields))
          = expProcessOne (Value.obj fields))
    ∧ expProcessOne (Value.obj [("location", Value.str "Remote"),
          ("title", Value.str "Dev")])
        = .ok [Flowable.para "<table width=\x27100%\x27><tr><td></td></tr></table>"
                 "ExperienceTitle",
               Flowable.para "<i>Dev</i>" "JobTitle",
               Flowable.spacer 1 10] := by
  refine ⟨fun v fields hc hl => ?_, rfl⟩
  simp [expProcessOne, pyContains, pyGetItem, lookupAssoc, hc, hl, Bind.bind, Except.bind]

/-- C10 witness: the location-independence clause applied at a concrete
record with a location and no company. -/
theorem c10_location_requires_company_witness :
    expProcessOne (Value.obj [("location", Value.str "NYC"), ("title", Value.str "Dev")])
      = expProcessOne (Value.obj [("title", Value.str "Dev")]) :=
  c10_location_requires_company.1 (Value.str "NYC") [("title", Value.str "Dev")] rfl rfl

/-- C1: an exception inside a section renderer is caught at the section
boundary and replaced by the single error-styled block naming the section
(first clause); on a dict record the fixed-order loop itself never aborts
(second clause); and concretely a record whose `experience` renderer raises
still gets its `skills` section rendered, with the error block inline and
processing continued (third clause). -/
theorem c1_section_error_contained :
    (∀ (sectionName : String) (content : Value) (msg : String),
        processSectionBody sectionName content = .error msg →
        process_section sectionName content = [errorBlock sectionName msg])
    ∧ (∀ fields : List (String × Value),
        (fixedLoop section_order (Value.obj fields) []).2.2 = none)
    ∧ (process_resume (Value.obj
          [("skills", Value.obj [("Langs", Value.arr [Value.str "C"])]),
           ("experience", Value.arr [Value.num 7])])).2.1
        = [Flowable.para "Skills" "SectionHeader", Flowable.hrDivider,
           Flowable.para "<b>Langs:</b> C" "SkillItem", Flowable.spacer 1 3,
           Flowable.para "Experience" "SectionHeader", Flowable.hrDivider,
           errorBlock "experience"
             "TypeError: argument of type \x27int\x27 is not iterable"] := by
  refine ⟨fun n c msg h => ?_, fun fields => ?_, rfl⟩
  · unfold process_section
    rw [h]
  · obtain ⟨blocks, hfl⟩ := fixedLoop_obj section_order fields []
    rw [hfl]

/-- C1 witness: the boundary clause applied to a payload on which the
experience renderer raises (`iter(3)`). -/
theorem c1_section_error_contained_witness :
    process_section "experience" (Value.num 3)
      = [errorBlock "experience" "TypeError: \x27int\x27 object is not iterable"] :=
  c1_section_error_contained.1 "experience" (Value.num 3) _ rfl

/-- C7 counterexample: `process_resume` does mutate the supplied record in
place — after rendering a record whose `education` key holds the bare
string `"BS CS"`, that key holds the canonicalized placeholder list, not
the original string. -/
theorem c7_counterexample_education_mutation :
    vLookup (process_resume (Value.obj [("education", Value.str "BS CS")])).2.2 "education"
      = some (educationCanonEntry "BS CS")
    ∧ educationCanonEntry "BS CS" ≠ Value.str "BS CS" :=
  ⟨rfl, fun h => Value.noConfusion h⟩

/-- C7 amended: the engine mutates the record only at the `education` key
and only when that key holds a truthy non-list value: every other top-level
key still maps to its original value after rendering, and the record is
returned unchanged whenever `education` is absent or already a list. -/
theorem c7_amended_mutation_scope :
    (∀ (fields : List (String × Value)) (k : String), k ≠ "education" →
        vLookup (process_resume (Value.obj fields)).2.2 k = lookupAssoc fields k)
    ∧ (∀ fields : List (String × Value), lookupAssoc fields "education" = none →
        (process_resume (Value.obj fields)).2.2 = Value.obj fields)
    ∧ (∀ (fields : List (String × Value)) (l : List Value),
        lookupAssoc fields "education" = some (Value.arr l) →
        (process_resume (Value.obj fields)).2.2 = Value.obj fields) := by
  refine ⟨fun fields k hk => ?_, fun fields h => ?_, fun fields l h => ?_⟩
  · obtain ⟨blocks, hfl, hpr⟩ := process_resume_obj fields
    rw [hpr]
    exact foldl_fixedStepFields_lookup_ne section_order fields k hk
  · obtain ⟨blocks, hfl, hpr⟩ := process_resume_obj fields
    rw [hpr]
    show Value.obj (section_order.foldl (fun fs sect => fixedStepFields fs sect) fields)
      = Value.obj fields
    rw [foldl_fixedStepFields_id section_order fields (Or.inl h)]
  · obtain ⟨blocks, hfl, hpr⟩ := process_resume_obj fields
    rw [hpr]
    show Value.obj (section_order.foldl (fun fs sect => fixedStepFields fs sect) fields)
      = Value.obj fields
    rw [foldl_fixedStepFields_id section_order fields (Or.inr ⟨l, h⟩)]

/-- C7 amended witness: a non-education key keeps its value. -/
theorem c7_amended_mutation_scope_witness :
    vLookup (process_resume (Value.obj [("name", Value.str "Ada")])).2.2 "name"
      = some (Value.str "Ada") :=
  c7_amended_mutation_scope.1 [("name", Value.str "Ada")] "name" (by decide)

/-- C8: after the fixed-order sections, every remaining top-level key
outside the reserved set whose value is not `None` is emitted — humanized
title, divider, then the renderer's output — in the record's original key
order (first clause, where the filtered record equals the original because
only the reserved `education` key is ever rewritten); concretely
`"hobbies": ["chess", "hiking"]` yields a `Hobbies` section with one bullet
per string, placed after the fixed-order sections even when the `hobbies`
key comes first in the record. -/
theorem c8_other_sections_emitted :
    (∀ fields : List (String × Value),
        (process_resume (Value.obj fields)).2.1
          = (fixedLoop section_order (Value.obj fields) []).1
            ++ (fields.filter (fun kv => !skipFields.contains kv.1
                  && !(kv.2 == Value.null))).flatMap otherSectionBlocks)
    ∧ (process_resume (Value.obj [("name", Value.str "Ada"),
          ("hobbies", Value.arr [Value.str "chess", Value.str "hiking"])])).2.1
        = [Flowable.para "Hobbies" "SectionHeader", Flowable.hrDivider,
           Flowable.para (bullet ++ " chess") "ListItem",
           Flowable.para (bullet ++ " hiking") "ListItem"]
    ∧ (process_resume (Value.obj
          [("hobbies", Value.arr [Value.str "chess", Value.str "hiking"]),
           ("summary", Value.str "Hi")])).2.1
        = [Flowable.para "Summary" "SectionHeader", Flowable.hrDivider,
           Flowable.para "Hi" "Normal",
           Flowable.para "Hobbies" "SectionHeader", Flowable.hrDivider,
           Flowable.para (bullet ++ " chess") "ListItem",
           Flowable.para (bullet ++ " hiking") "ListItem"] := by
  refine ⟨fun fields => ?_, rfl, rfl⟩
  obtain ⟨blocks, hfl, hpr⟩ := process_resume_obj fields
  rw [hpr, hfl]
  show blocks ++ remainingBlocks _ = blocks ++ _
  rw [remainingBlocks, foldl_fixedStepFields_filter]

/-- C8 witness: the decomposition clause instantiated at a concrete record. -/
theorem c8_other_sections_emitted_witness :
    (process_resume (Value.obj [("interests", Value.arr [Value.str "go"])])).2.1
      = (fixedLoop section_order
            (Value.obj [("interests", Value.arr [Value.str "go"])]) []).1
        ++ (([("interests", Value.arr [Value.str "go"])] :
              List (String × Value)).filter (fun kv => !skipFields.contains kv.1
                && !(kv.2 == Value.null))).flatMap otherSectionBlocks :=
  c8_other_sections_emitted.1 [("interests", Value.arr [Value.str "go"])]

end ResumeGen
